import Mathlib

/-!
Verification of the Dataset Memory & Scoring Engine specification for the
phishing-detection repository.  The frontend API client and app logic are
embedded from `src/frontend/js/api.js` and the main application script; the
ML engine modules (`src/features.py`, `src/train.py`, `src/predict.py`) are
documented but not present in the repository, so their behaviour is modelled
from the specification where noted.
-/

namespace Phish

/-- Character-level whitespace test, modelling JavaScript `trim` and the
blank-input checks of the spec. -/
def isWs (c : Char) : Bool := c = ' ' || c = '\t' || c = '\n' || c = '\r'

/-- Trim leading and trailing whitespace from a character list. -/
def trimChars (l : List Char) : List Char :=
  ((l.dropWhile isWs).reverse.dropWhile isWs).reverse

/-- A text is blank when it trims to the empty string. -/
def isBlank (s : String) : Bool := trimChars s.toList = []

/-- Lower-cased character list of a string. -/
def lowerChars (s : String) : List Char := s.toList.map Char.toLower

/-- Number of positions at which `needle` occurs in `hay`. -/
def countSubstr (needle hay : List Char) : Nat :=
  (hay.tails.filter (fun t => needle.isPrefixOf t)).length

/-- Substring occurrence test over character lists. -/
def occursIn (needle hay : List Char) : Bool :=
  hay.tails.any (fun t => needle.isPrefixOf t)

/-- Modelled from the spec: the fixed urgent-keyword list of the missing
feature extractor (`src/features.py`), as documented in
`src/docs/MODEL_DOCUMENTATION.md`. -/
def URGENT_KEYWORDS : List String :=
  ["urgent", "immediately", "action required", "act now", "suspend",
   "verify", "confirm", "expire", "limited time", "final notice",
   "warning", "alert", "security", "locked", "disabled", "blocked",
   "unauthorized", "suspicious", "unusual", "violation", "risk",
   "24 hours", "48 hours", "deadline", "asap", "important"]

/-- Modelled from the spec: the fixed trusted-domain allow-list of the
missing ensemble scorer, as documented in `src/docs/MODEL_DOCUMENTATION.md`. -/
def TRUSTED_DOMAINS : List String :=
  ["linkedin.com", "indeed.com", "glassdoor.com", "vietnamworks.com",
   "google.com", "gmail.com", "microsoft.com", "outlook.com",
   "amazon.com", "apple.com", "facebook.com", "meta.com",
   "github.com", "twitter.com", "x.com", "slack.com",
   "shopee.vn", "lazada.vn", "tiki.vn",
   "paypal.com", "stripe.com"]

/-- Modelled from the spec: known-suspicious domain name patterns. -/
def SUSPICIOUS_PATTERNS : List String := ["secure-", "login-", "verify-"]

/-- Modelled from the spec: suspicious top-level domains. -/
def SUSPICIOUS_TLDS : List String := [".xyz", ".click", ".link"]

/-- Modelled from the spec: link count as the number of URL-like substrings
in the email text. -/
def linksCount (text : String) : Nat := countSubstr "http".toList text.toList

/-- Modelled from the spec: urgent-keyword flag, a substring match of the
lower-cased text against the fixed keyword list. -/
def urgentFlag (text : String) : Bool :=
  URGENT_KEYWORDS.any (fun k => occursIn k.toList (lowerChars text))

/-- Modelled from the spec: the step function from link count to link risk
(0 links to 0.0, 1 to 0.2, 2-3 to 0.4, 4-5 to 0.6, 6 or more to 0.8). -/
def linkRisk (n : Nat) : ℚ :=
  if n = 0 then 0
  else if n = 1 then 1/5
  else if n ≤ 3 then 2/5
  else if n ≤ 5 then 3/5
  else 4/5

/-- Modelled from the spec: categorical domain-risk lookup
(suspicious pattern 0.8, suspicious TLD 0.6, recognized normal domain 0.1,
unrecognized domain 0.3). -/
def domainRisk (d : String) : ℚ :=
  if SUSPICIOUS_PATTERNS.any (fun p => p.toList.isPrefixOf d.toList) then 4/5
  else if SUSPICIOUS_TLDS.any (fun t => t.toList.isSuffixOf d.toList) then 3/5
  else if TRUSTED_DOMAINS.contains d then 1/10
  else 3/10

/-- Binary flag on a 0-1 scale. -/
def boolToRat (b : Bool) : ℚ := if b then 1 else 0

/-- Modelled from the spec: the weighted ensemble combination of model
probability and the rule-based risk signals. -/
def ensembleScore (p : ℚ) (urgent : Bool) (links : Nat) (domain : String) : ℚ :=
  p * (6/10) + boolToRat urgent * (15/100) + linkRisk links * (15/100)
    + domainRisk domain * (1/10)

/-- Modelled from the spec: the sender domain of each detected link,
extracted as the host part following a URL scheme marker. -/
def domainsOf (text : String) : List String :=
  ((text.toList.tails.filter (fun t => "://".toList.isPrefixOf t)).map
    (fun t => String.mk ((t.drop 3).takeWhile (fun c => !(isWs c || c = '/')))))

/-- Modelled from the spec: trusted-sender discount factor — 0.6 when the
sender and every detected link domain are trusted, 0.8 when only the sender
is trusted, 1 otherwise; the two discounts are mutually exclusive. -/
def discountFactor (senderDomain : String) (linkDomains : List String) : ℚ :=
  if TRUSTED_DOMAINS.contains senderDomain then
    if linkDomains.all (fun d => TRUSTED_DOMAINS.contains d) then 6/10 else 8/10
  else 1

/-- Modelled from the spec: sender domain from the sender address if
present, else the sentinel value. -/
def senderDomainOf (sender : Option String) : String :=
  match sender with
  | some d => d
  | none => "unknown"

/-- The three-tier verdict of the ensemble scorer. -/
inductive Tier where
  | SAFE
  | SUSPICIOUS
  | PHISHING
deriving DecidableEq

/-- Modelled from the spec: the persisted training artifact — calibrated
decision threshold, classifier summary and sample count. -/
structure ModelArtifact where
  threshold : ℚ
  priorProb : ℚ
  sampleCount : Nat
deriving DecidableEq

/-- Modelled from the spec: documented default decision threshold used when
no trained artifact exists. -/
def DEFAULT_THRESHOLD : ℚ := 1/2

/-- Threshold used at inference: the threshold of the trained artifact, or the
documented default when no artifact exists. -/
def thresholdOf (artifact : Option ModelArtifact) : ℚ :=
  match artifact with
  | some a => a.threshold
  | none => DEFAULT_THRESHOLD

/-- Modelled from the spec: tier classification with the trained threshold
as lower cutoff and 0.8 as the fixed upper cutoff. -/
def tierOf (threshold s : ℚ) : Tier :=
  if s < threshold then .SAFE
  else if s < 8/10 then .SUSPICIOUS
  else .PHISHING

/-- The score report the engine produces for one email. -/
structure ScoreReport where
  model_probability : ℚ
  ensemble_score : ℚ
  tier : Tier
  urgent : Bool
  links_count : Nat
  sender_domain : String
deriving DecidableEq

/-- The inference error taxonomy entry for empty or blank input. -/
inductive InferenceInputError where
  | emptyInput
deriving DecidableEq

instance {ε α : Type} [DecidableEq ε] [DecidableEq α] : DecidableEq (Except ε α) := fun x y =>
  match x, y with
  | .ok a, .ok b =>
      if h : a = b then .isTrue (by rw [h])
      else .isFalse (fun hc => h (by injection hc))
  | .ok _, .error _ => .isFalse (fun hc => by injection hc)
  | .error _, .ok _ => .isFalse (fun hc => by injection hc)
  | .error a, .error b =>
      if h : a = b then .isTrue (by rw [h])
      else .isFalse (fun hc => h (by injection hc))

/-- Modelled from the spec: the ensemble scorer `score` contract of the
missing `src/predict.py` — fail fast on blank input, otherwise extract
features, combine the weighted ensemble, apply the trusted-sender discount
after the weighted sum, and tier the result. -/
def score (artifact : Option ModelArtifact) (p : ℚ) (text : String)
    (sender : Option String) : Except InferenceInputError ScoreReport :=
  if isBlank text then .error .emptyInput
  else
    let dom := senderDomainOf sender
    let raw := ensembleScore p (urgentFlag text) (linksCount text) dom
    let final := raw * discountFactor dom (domainsOf text)
    .ok { model_probability := p
          ensemble_score := final
          tier := tierOf (thresholdOf artifact) final
          urgent := urgentFlag text
          links_count := linksCount text
          sender_domain := dom }

/-! ## Threshold calibration (Training Orchestrator step 5) -/

/-- F1-score of thresholding the held-out probabilities at `t` against the
labels, as in the documented optimal-threshold loop: a record is predicted
positive when its probability is at least `t`. -/
def f1At (probs : List ℚ) (labels : List Bool) (t : ℚ) : ℚ :=
  let pairs := probs.zip labels
  let tp : ℕ := pairs.countP (fun pr => decide (t ≤ pr.1) && pr.2)
  let fp : ℕ := pairs.countP (fun pr => decide (t ≤ pr.1) && !pr.2)
  let fn : ℕ := pairs.countP (fun pr => !(decide (t ≤ pr.1)) && pr.2)
  if 2 * tp + fp + fn = 0 then 0
  else (2 * tp : ℚ) / ((2 * tp + fp + fn : ℕ) : ℚ)

/-- Left fold over the candidate list keeping the current best, replacing it
only on a strictly larger score — so the earliest maximum is kept, as in the
documented loop `if f1 > best_f1`. -/
def argmaxFirst (f : ℚ → ℚ) (b : ℚ) : List ℚ → ℚ
  | [] => b
  | t :: ts => argmaxFirst f (if f b < f t then t else b) ts

/-- The candidate thresholds after the first one. -/
def GRID_TAIL : List ℚ := [35/100, 4/10, 45/100, 1/2, 55/100, 6/10, 65/100, 7/10]

/-- The fixed candidate threshold grid, 0.30 through 0.70 in steps of 0.05. -/
def THRESHOLD_GRID : List ℚ := 3/10 :: GRID_TAIL

/-- Modelled from the spec: the documented optimal-threshold selection loop
of the missing `src/train.py` — scan the grid in order, keeping a candidate
only when its F1 strictly exceeds the best so far. -/
def selectThreshold (probs : List ℚ) (labels : List Bool) : ℚ :=
  argmaxFirst (f1At probs labels) (3/10) GRID_TAIL

/-! ## History Store / Dataset Ingestor -/

/-- One row of a raw dataset: a text-bearing column and a label column. -/
structure DatasetRow where
  text : String
  label : String
deriving DecidableEq

/-- A candidate dataset: source name, file format, and its normalized rows. -/
structure RawDataset where
  source_name : String
  fmt : String
  rows : List DatasetRow
deriving DecidableEq

/-- Modelled from the spec: the deterministic content hash is computed over
the normalized row content, not the raw bytes, so re-exporting the same data
in a different file format still deduplicates.  The hash is modelled as the
normalized row list itself (an injective content function). -/
def contentHash (d : RawDataset) : List DatasetRow := d.rows

/-- A History Store entry: content hash, source name and row count;
immutable once created. -/
structure CachedDatasetEntry where
  content_hash : List DatasetRow
  source_name : String
  row_count : Nat
deriving DecidableEq

/-- The entry registered for a newly ingested dataset. -/
def mkEntry (d : RawDataset) : CachedDatasetEntry :=
  { content_hash := contentHash d, source_name := d.source_name,
    row_count := d.rows.length }

/-- Result of ingesting one candidate dataset. -/
structure IngestResult where
  store : List CachedDatasetEntry
  added : List CachedDatasetEntry
  skipped_duplicates : Nat
deriving DecidableEq

/-- Modelled from the spec: ingestion of one candidate dataset — a dataset
whose content hash already exists in the store is a no-op; otherwise its
entry is appended, and existing entries are never rewritten or removed. -/
def ingestOne (store : List CachedDatasetEntry) (d : RawDataset) : IngestResult :=
  if store.any (fun e => decide (e.content_hash = contentHash d)) then
    { store := store, added := [], skipped_duplicates := 1 }
  else
    { store := store ++ [mkEntry d], added := [mkEntry d], skipped_duplicates := 0 }

/-- A concrete two-row dataset exported as CSV. -/
def csvSet : RawDataset :=
  { source_name := "jobs_a", fmt := "csv",
    rows := [{ text := "meeting tomorrow", label := "ham" },
             { text := "verify your account", label := "spam" }] }

/-- The same normalized rows re-exported as a spreadsheet. -/
def xlsxSet : RawDataset :=
  { source_name := "jobs_a_export", fmt := "xlsx",
    rows := [{ text := "meeting tomorrow", label := "ham" },
             { text := "verify your account", label := "spam" }] }

/-! ## Training Orchestrator -/

/-- Modelled from the spec: label normalization from heterogeneous source
vocabularies to 0/1; unmapped label values are dropped. -/
def normalizeLabel (s : String) : Option Bool :=
  let t := String.mk (trimChars (lowerChars s))
  if ["1", "spam", "phishing", "phish", "fraud", "scam"].contains t then some true
  else if ["0", "ham", "legitimate", "legit", "safe", "benign"].contains t then some false
  else none

/-- Modelled from the spec: the fixed, reproducible 80/20 split of the
corpus, here taking every fifth record as the held-out partition. -/
def splitCorpus (corpus : List (String × Bool)) :
    List (String × Bool) × List (String × Bool) :=
  ((corpus.enum.filter (fun p => decide (p.1 % 5 ≠ 0))).map Prod.snd,
   (corpus.enum.filter (fun p => decide (p.1 % 5 = 0))).map Prod.snd)

/-- Fatal training error: the corpus is empty or single-class. -/
inductive TrainError where
  | insufficientData
deriving DecidableEq

/-- Modelled from the spec: one training run — normalize labels (dropping
unmapped values), abort with `InsufficientDataError` on an empty or
single-class corpus, split, fit, calibrate the threshold on the held-out
partition and return the new artifact.  The statistical classifier itself
(`src/features.py` and `src/train.py` are missing from the repository) is
abstracted as the class prior of the training partition. -/
def runTrain (corpus : List DatasetRow) : Except TrainError ModelArtifact :=
  let labeled := corpus.filterMap
    (fun r => (normalizeLabel r.label).map (fun b => (r.text, b)))
  if labeled.isEmpty then .error .insufficientData
  else if labeled.all (fun p => p.2) then .error .insufficientData
  else if labeled.all (fun p => !p.2) then .error .insufficientData
  else
    let split := splitCorpus labeled
    let trainPart := split.1
    let heldOut := split.2
    let prior : ℚ := (trainPart.countP (fun p => p.2) : ℚ) / (trainPart.length : ℚ)
    .ok { threshold := selectThreshold (heldOut.map (fun _ => prior))
            (heldOut.map (fun p => p.2))
          priorProb := prior
          sampleCount := labeled.length }

/-- Modelled from the spec: the persistence step — the previously persisted
artifact is replaced only when the whole run succeeds. -/
def trainAndPersist (prev : Option ModelArtifact) (corpus : List DatasetRow) :
    Option ModelArtifact × Except TrainError ModelArtifact :=
  match runTrain corpus with
  | .error e => (prev, .error e)
  | .ok a => (some a, .ok a)

/-! ## Frontend: App.handleAnalyze (src/unnamed/part_000) -/

/-- What the analyze form handler does with the textarea content. -/
inductive AnalyzeAction where
  | showErrorEmpty
  | callAnalyze (text : String)
deriving DecidableEq

/-- Embedded from `App.handleAnalyze`: trim the textarea value; when the
trimmed text is empty, show an error and do not call the analyze endpoint;
otherwise submit the trimmed text. -/
def handleAnalyze (raw : String) : AnalyzeAction :=
  let emailText := trimChars raw.toList
  if emailText = [] then .showErrorEmpty
  else .callAnalyze (String.mk emailText)

/-! ## Frontend: ApiClient (src/frontend/js/api.js) -/

/-- Embedded from `ApiError` in `src/frontend/js/api.js`: message, error
type tag, optional HTTP status code, and the auth flag (false unless set
explicitly on the 401/403 path). -/
structure ApiError where
  message : String
  type : String
  statusCode : Option Nat
  isAuthError : Bool
deriving DecidableEq

/-- Outcome of the `fetch` call inside `ApiClient.request`: the promise
rejects with a TypeError mentioning fetch, rejects with some other error, or
resolves with an HTTP response whose body either parses as JSON or not. -/
inductive FetchOutcome where
  | fetchTypeError (msg : String)
  | otherThrow (msg : String)
  | resp (status : Nat) (body : Option String)
deriving DecidableEq

/-- `Response.ok` of the Fetch API: status in the 200-299 range. -/
def statusOk (status : Nat) : Bool := 200 ≤ status && status ≤ 299

/-- The network-failure message used by `ApiClient.request`. -/
def NETWORK_ERROR_MSG : String :=
  "Network error: Unable to connect to server. Please check your internet connection."

/-- Embedded from `ApiClient.request`: parse the JSON body first (a parse
failure throws an API_ERROR carrying the status), then map 401/403 to an
AUTH_ERROR with the auth flag set, any other non-ok status to an API_ERROR,
and only an ok status resolves with the parsed body; fetch rejections are
wrapped as NETWORK_ERROR or UNKNOWN_ERROR. -/
def request (f : FetchOutcome) : Except ApiError String :=
  match f with
  | .resp status body =>
    match body with
    | none =>
        .error { message := "Server error", type := "API_ERROR",
                 statusCode := some status, isAuthError := false }
    | some data =>
        if status = 401 || status = 403 then
          .error { message := data, type := "AUTH_ERROR",
                   statusCode := some status, isAuthError := true }
        else if !statusOk status then
          .error { message := data, type := "API_ERROR",
                   statusCode := some status, isAuthError := false }
        else .ok data
  | .fetchTypeError _ =>
      .error { message := NETWORK_ERROR_MSG, type := "NETWORK_ERROR",
               statusCode := none, isAuthError := false }
  | .otherThrow m =>
      .error { message := m, type := "UNKNOWN_ERROR",
               statusCode := none, isAuthError := false }

/-- Result accumulator of `ApiClient.analyzeBulkEmails`. -/
structure BulkResults where
  successful : List (Nat × String)
  failed : List (Nat × String)
deriving DecidableEq

/-- Embedded from `ApiClient.analyzeBulkEmails`: analyze each email id with
its own request (`outcome` maps an id to the outcome of its request, a
function of the id alone), pushing a success record or a failure record per
id, never aborting the loop. -/
def analyzeBulkEmails (outcome : Nat → Except ApiError String) :
    List Nat → BulkResults
  | [] => { successful := [], failed := [] }
  | id :: rest =>
    let r := analyzeBulkEmails outcome rest
    match outcome id with
    | .ok resp => { successful := (id, resp) :: r.successful, failed := r.failed }
    | .error e => { successful := r.successful, failed := (id, e.message) :: r.failed }

/-- Truth value of an `Except` being a success. -/
def exceptOk {ε α : Type} : Except ε α → Bool
  | .ok _ => true
  | .error _ => false

/-- Modelled from the spec: the batch inference variant — a list of texts is
scored element-wise, each through the same single-record `score`. -/
def scoreBatch (artifact : Option ModelArtifact) (p : String → ℚ)
    (inputs : List (String × Option String)) :
    List (Except InferenceInputError ScoreReport) :=
  inputs.map (fun inp => score artifact (p inp.1) inp.1 inp.2)

/-! ## Helper lemmas -/

lemma score_ok_of_not_blank (artifact : Option ModelArtifact) (p : ℚ) (text : String)
    (sender : Option String) (hb : isBlank text = false) :
    score artifact p text sender =
      .ok { model_probability := p
            ensemble_score := ensembleScore p (urgentFlag text) (linksCount text)
                (senderDomainOf sender)
              * discountFactor (senderDomainOf sender) (domainsOf text)
            tier := tierOf (thresholdOf artifact)
              (ensembleScore p (urgentFlag text) (linksCount text) (senderDomainOf sender)
                * discountFactor (senderDomainOf sender) (domainsOf text))
            urgent := urgentFlag text
            links_count := linksCount text
            sender_domain := senderDomainOf sender } := by
  simp only [score, hb, Bool.false_eq_true, if_false]

lemma score_ok_elim (artifact : Option ModelArtifact) (p : ℚ) (text : String)
    (sender : Option String) (r : ScoreReport)
    (h : score artifact p text sender = .ok r) :
    isBlank text = false ∧
    r = { model_probability := p
          ensemble_score := ensembleScore p (urgentFlag text) (linksCount text)
              (senderDomainOf sender)
            * discountFactor (senderDomainOf sender) (domainsOf text)
          tier := tierOf (thresholdOf artifact)
            (ensembleScore p (urgentFlag text) (linksCount text) (senderDomainOf sender)
              * discountFactor (senderDomainOf sender) (domainsOf text))
          urgent := urgentFlag text
          links_count := linksCount text
          sender_domain := senderDomainOf sender } := by
  by_cases hb : isBlank text = true
  · rw [score, if_pos hb] at h
    exact absurd h (by simp)
  · have hb' : isBlank text = false := by
      cases hble : isBlank text
      · rfl
      · exact absurd hble hb
    rw [score_ok_of_not_blank artifact p text sender hb'] at h
    injection h with h
    exact ⟨hb', h.symm⟩

lemma score_hello_eval : score none (1/2) "hello" none =
    .ok { model_probability := 1/2, ensemble_score := 33/100, tier := .SAFE,
          urgent := false, links_count := 0, sender_domain := "unknown" } := by
  have hb : isBlank "hello" = false := by decide
  have hu : urgentFlag "hello" = false := by decide
  have hl : linksCount "hello" = 0 := by decide
  have hd : domainsOf "hello" = [] := by decide
  have h1 : SUSPICIOUS_PATTERNS.any (fun p => p.toList.isPrefixOf "unknown".toList) = false := by
    decide
  have h2 : SUSPICIOUS_TLDS.any (fun t => t.toList.isSuffixOf "unknown".toList) = false := by
    decide
  have h3 : TRUSTED_DOMAINS.contains "unknown" = false := by decide
  simp only [score, hb, Bool.false_eq_true, if_false, senderDomainOf, hu, hl, hd,
    ensembleScore, boolToRat, linkRisk, domainRisk, h1, h2, h3, discountFactor,
    List.all_nil, tierOf, thresholdOf, DEFAULT_THRESHOLD, if_true]
  norm_num

/-! ## Claims -/

/-- C1: for every scored email, the ensemble score is the weighted sum
`model_probability*0.60 + urgent*0.15 + link_risk*0.15 + domain_risk*0.10`
of the model probability, the binary urgent flag, the link-count step
function and the categorical domain lookup, and the trusted-sender discount
is applied only after this weighted sum (the reported score is the full
weighted sum multiplied by the discount factor). -/
theorem ensemble_weighted_sum_before_discount
    (artifact : Option ModelArtifact) (p : ℚ) (text : String)
    (sender : Option String) (r : ScoreReport)
    (h : score artifact p text sender = .ok r) :
    r.model_probability = p ∧
    r.ensemble_score =
      (p * (6/10) + boolToRat (urgentFlag text) * (15/100)
        + linkRisk (linksCount text) * (15/100)
        + domainRisk (senderDomainOf sender) * (1/10))
      * discountFactor (senderDomainOf sender) (domainsOf text) := by
  obtain ⟨-, rfl⟩ := score_ok_elim artifact p text sender r h
  exact ⟨rfl, rfl⟩

/-- Witness for C1 at a concrete benign email. -/
theorem ensemble_weighted_sum_before_discount_witness :
    (33/100 : ℚ) =
      ((1/2) * (6/10) + boolToRat (urgentFlag "hello") * (15/100)
        + linkRisk (linksCount "hello") * (15/100)
        + domainRisk (senderDomainOf none) * (1/10))
      * discountFactor (senderDomainOf none) (domainsOf "hello") :=
  (ensemble_weighted_sum_before_discount none (1/2) "hello" none _ score_hello_eval).2

/-- C2: the tier is computed with the trained threshold as the lower cutoff
and 0.8 as the fixed upper cutoff — score below the threshold is SAFE,
score at least the threshold and below 0.8 is SUSPICIOUS, score at least
0.8 is PHISHING; a score exactly at the threshold is SUSPICIOUS and a score
exactly 0.8 is PHISHING; without a trained artifact the default threshold
0.5 applies; and the tier of every score report is obtained this way from
its ensemble score. -/
theorem tier_threshold_boundaries (artifact : Option ModelArtifact) (t s : ℚ)
    (ht : t < 8/10) :
    (tierOf t s = .SAFE ↔ s < t)
  ∧ (tierOf t s = .SUSPICIOUS ↔ t ≤ s ∧ s < 8/10)
  ∧ (tierOf t s = .PHISHING ↔ 8/10 ≤ s)
  ∧ tierOf t t = .SUSPICIOUS
  ∧ tierOf t (8/10) = .PHISHING
  ∧ thresholdOf none = 1/2
  ∧ (∀ p text sender r, score artifact p text sender = .ok r →
       r.tier = tierOf (thresholdOf artifact) r.ensemble_score) := by
  refine ⟨?_, ?_, ?_, ?_, ?_, rfl, ?_⟩
  · unfold tierOf
    split_ifs with h1 h2 <;> simp_all
  · unfold tierOf
    split_ifs with h1 h2 <;> simp_all
  · unfold tierOf
    split_ifs with h1 h2 <;> simp_all
    linarith
  · unfold tierOf
    rw [if_neg (lt_irrefl t), if_pos ht]
  · unfold tierOf
    rw [if_neg (not_lt.mpr (le_of_lt ht)), if_neg (lt_irrefl (8/10 : ℚ))]
  · intro p text sender r h
    obtain ⟨-, rfl⟩ := score_ok_elim artifact p text sender r h
    rfl

/-- Witness for C2 at the trained threshold 0.6. -/
theorem tier_threshold_boundaries_witness :
    tierOf (6/10) (6/10) = .SUSPICIOUS ∧ tierOf (6/10) (8/10) = .PHISHING
  ∧ thresholdOf none = 1/2 :=
  ⟨(tier_threshold_boundaries none (6/10) (1/2) (by norm_num)).2.2.2.1,
   (tier_threshold_boundaries none (6/10) (1/2) (by norm_num)).2.2.2.2.1,
   (tier_threshold_boundaries none (6/10) (1/2) (by norm_num)).2.2.2.2.2.1⟩

/-- C4: when the sender domain is on the fixed trusted list the discount
factor is exactly 0.8, and exactly 0.6 instead when additionally every
detected link domain is trusted; the two discounts are mutually exclusive —
the applied factor is never 0.8*0.6; and the reported score is the weighted
ensemble multiplied by this factor. -/
theorem trusted_discount_exclusive (senderDomain : String) (linkDomains : List String)
    (h : TRUSTED_DOMAINS.contains senderDomain = true) :
    (linkDomains.all (fun d => TRUSTED_DOMAINS.contains d) = true →
        discountFactor senderDomain linkDomains = 6/10)
  ∧ (linkDomains.all (fun d => TRUSTED_DOMAINS.contains d) = false →
        discountFactor senderDomain linkDomains = 8/10)
  ∧ discountFactor senderDomain linkDomains ≠ (8/10) * (6/10)
  ∧ (∀ artifact p text sender r, score artifact p text sender = .ok r →
       r.ensemble_score =
         ensembleScore p (urgentFlag text) (linksCount text) (senderDomainOf sender)
           * discountFactor (senderDomainOf sender) (domainsOf text)) := by
  refine ⟨?_, ?_, ?_, ?_⟩
  · intro ha
    simp only [discountFactor, h, ha, if_true]
  · intro ha
    simp only [discountFactor, h, ha, Bool.false_eq_true, if_false, if_true]
  · unfold discountFactor
    rw [if_pos h]
    split_ifs <;> norm_num
  · intro artifact p text sender r hr
    obtain ⟨-, rfl⟩ := score_ok_elim artifact p text sender r hr
    rfl

/-- Witness for C4: trusted sender with one trusted link gets the 0.6
factor. -/
theorem trusted_discount_exclusive_witness :
    discountFactor "google.com" ["github.com"] = 6/10 ∧
    discountFactor "google.com" ["github.com"] ≠ (8/10) * (6/10) :=
  ⟨(trusted_discount_exclusive "google.com" ["github.com"] (by decide)).1 (by decide),
   (trusted_discount_exclusive "google.com" ["github.com"] (by decide)).2.2.1⟩

/-- C7: blank input fails fast — for input whose text trims to empty, the
frontend analyze handler refuses to submit and shows an error instead of
calling the analyze endpoint, and the scoring operation returns a
descriptive error and never a score report. -/
theorem blank_input_fails_fast (raw : String) (artifact : Option ModelArtifact)
    (p : ℚ) (sender : Option String) (h : trimChars raw.toList = []) :
    handleAnalyze raw = .showErrorEmpty
  ∧ score artifact p raw sender = .error .emptyInput
  ∧ (∀ r, score artifact p raw sender ≠ .ok r) := by
  have hb : isBlank raw = true := by
    simp only [isBlank, h, decide_eq_true_eq]
  refine ⟨?_, ?_, ?_⟩
  · simp only [handleAnalyze, h, if_true]
  · simp only [score, hb, if_true]
  · intro r hr
    rw [score, if_pos hb] at hr
    exact absurd hr (by simp)

/-- Witness for C7 on a whitespace-only textarea value. -/
theorem blank_input_fails_fast_witness :
    handleAnalyze "   " = .showErrorEmpty
  ∧ score none 0 "   " none = .error .emptyInput :=
  ⟨(blank_input_fails_fast "   " none 0 none (by decide)).1,
   (blank_input_fails_fast "   " none 0 none (by decide)).2.1⟩

lemma argmaxFirst_mem_max (f : ℚ → ℚ) (l : List ℚ) : ∀ b : ℚ,
    (argmaxFirst f b l = b ∨ argmaxFirst f b l ∈ l)
  ∧ f b ≤ f (argmaxFirst f b l)
  ∧ (∀ y ∈ l, f y ≤ f (argmaxFirst f b l))
  ∧ (f (argmaxFirst f b l) = f b → argmaxFirst f b l = b) := by
  induction l with
  | nil =>
    intro b
    exact ⟨Or.inl rfl, le_refl _, by simp, fun _ => rfl⟩
  | cons t ts ih =>
    intro b
    rw [argmaxFirst]
    by_cases hc : f b < f t
    · rw [if_pos hc]
      obtain ⟨hmem, hle, hmax, htie⟩ := ih t
      refine ⟨?_, ?_, ?_, ?_⟩
      · rcases hmem with h | h
        · refine Or.inr ?_
          rw [h]
          exact List.mem_cons_self t ts
        · exact Or.inr (List.mem_cons_of_mem t h)
      · exact le_trans (le_of_lt hc) hle
      · intro y hy
        rcases List.mem_cons.mp hy with rfl | hy
        · exact hle
        · exact hmax y hy
      · intro he
        exact absurd (he ▸ hle) (not_le.mpr hc)
    · rw [if_neg hc]
      obtain ⟨hmem, hle, hmax, htie⟩ := ih b
      refine ⟨?_, ?_, ?_, ?_⟩
      · rcases hmem with h | h
        · exact Or.inl h
        · exact Or.inr (List.mem_cons_of_mem t h)
      · exact hle
      · intro y hy
        rcases List.mem_cons.mp hy with rfl | hy
        · exact le_trans (not_lt.mp hc) hle
        · exact hmax y hy
      · exact htie

lemma argmaxFirst_tie_lowest (f : ℚ → ℚ) (l : List ℚ) : ∀ b : ℚ,
    (∀ y ∈ l, b ≤ y) → l.Pairwise (· ≤ ·) →
    ∀ y ∈ l, f y = f (argmaxFirst f b l) → argmaxFirst f b l ≤ y := by
  induction l with
  | nil =>
    intro b _ _ y hy
    cases hy
  | cons t ts ih =>
    intro b hb hsort y hy he
    obtain ⟨hts, hsort2⟩ := List.pairwise_cons.mp hsort
    rw [argmaxFirst] at he ⊢
    by_cases hc : f b < f t
    · rw [if_pos hc] at he ⊢
      rcases List.mem_cons.mp hy with rfl | hy
      · exact le_of_eq ((argmaxFirst_mem_max f ts _).2.2.2 he.symm)
      · exact ih t hts hsort2 y hy he
    · rw [if_neg hc] at he ⊢
      rcases List.mem_cons.mp hy with rfl | hy
      · have hmm := argmaxFirst_mem_max f ts b
        have hfb : f (argmaxFirst f b ts) = f b :=
          le_antisymm (by linarith [not_lt.mp hc, he.symm.le]) hmm.2.1
        rw [hmm.2.2.2 hfb]
        exact hb _ (List.mem_cons_self _ _)
      · exact ih b (fun z hz => hb z (List.mem_cons_of_mem t hz)) hsort2 y hy he

set_option maxHeartbeats 1000000 in
/-- C3: for every held-out partition of predicted probabilities and labels,
the selected threshold is a candidate of the fixed grid 0.30..0.70, its F1
on the partition is maximal over the grid, and among tied maximizers the
lowest candidate is selected. -/
theorem threshold_selection_max_f1 (probs : List ℚ) (labels : List Bool) :
    selectThreshold probs labels ∈ THRESHOLD_GRID
  ∧ (∀ t ∈ THRESHOLD_GRID,
       f1At probs labels t ≤ f1At probs labels (selectThreshold probs labels))
  ∧ (∀ t ∈ THRESHOLD_GRID,
       f1At probs labels t = f1At probs labels (selectThreshold probs labels) →
       selectThreshold probs labels ≤ t) := by
  have hlb : ∀ y ∈ GRID_TAIL, (3/10 : ℚ) ≤ y := by
    intro y hy
    simp only [GRID_TAIL] at hy
    fin_cases hy <;> norm_num
  have hsort : GRID_TAIL.Pairwise (· ≤ ·) := by
    norm_num [GRID_TAIL, List.pairwise_cons]
  have hmm := argmaxFirst_mem_max (f1At probs labels) GRID_TAIL (3/10)
  have htie := argmaxFirst_tie_lowest (f1At probs labels) GRID_TAIL (3/10) hlb hsort
  simp only [THRESHOLD_GRID, selectThreshold]
  refine ⟨?_, ?_, ?_⟩
  · rcases hmm.1 with h | h
    · rw [h]
      exact List.mem_cons_self _ _
    · exact List.mem_cons_of_mem _ h
  · intro t ht
    rcases List.mem_cons.mp ht with rfl | ht
    · exact hmm.2.1
    · exact hmm.2.2.1 t ht
  · intro t ht he
    rcases List.mem_cons.mp ht with rfl | ht
    · rw [hmm.2.2.2 he.symm]
    · exact htie t ht he

/-- Witness for C3 on a concrete held-out partition. -/
theorem threshold_selection_max_f1_witness :
    selectThreshold [9/10, 2/10] [true, false] ∈ THRESHOLD_GRID
  ∧ f1At [9/10, 2/10] [true, false] (7/10) ≤
      f1At [9/10, 2/10] [true, false] (selectThreshold [9/10, 2/10] [true, false]) :=
  ⟨(threshold_selection_max_f1 [9/10, 2/10] [true, false]).1,
   (threshold_selection_max_f1 [9/10, 2/10] [true, false]).2.1 (7/10)
     (by norm_num [THRESHOLD_GRID, GRID_TAIL])⟩

/-- C5: ingestion is idempotent — after a dataset is ingested into a store
that does not yet hold its content hash, ingesting it again (or ingesting a
re-export with the same normalized rows under a different format) adds no
entry, rewrites or removes none, reports one skipped duplicate, and the
store holds exactly one entry for that content hash. -/
theorem ingestion_idempotent (store : List CachedDatasetEntry) (d d2 : RawDataset)
    (hfresh : store.countP (fun e => decide (e.content_hash = contentHash d)) = 0)
    (hsame : contentHash d2 = contentHash d) :
    (ingestOne (ingestOne store d).store d).store = (ingestOne store d).store
  ∧ (ingestOne (ingestOne store d).store d).added = []
  ∧ (ingestOne (ingestOne store d).store d).skipped_duplicates = 1
  ∧ (ingestOne (ingestOne store d).store d2).store = (ingestOne store d).store
  ∧ (ingestOne store d).store.countP
      (fun e => decide (e.content_hash = contentHash d)) = 1 := by
  have hany : store.any (fun e => decide (e.content_hash = contentHash d)) = false := by
    rw [List.any_eq_false]
    intro e he
    simp only [decide_eq_true_eq]
    intro hc
    have := List.countP_eq_zero.mp hfresh e he
    simp [hc] at this
  have hs1 : (ingestOne store d).store = store ++ [mkEntry d] := by
    simp only [ingestOne, hany, Bool.false_eq_true, if_false]
  have hany1 : (store ++ [mkEntry d]).any
      (fun e => decide (e.content_hash = contentHash d)) = true := by
    rw [List.any_append]
    simp [mkEntry]
  have hany2 : (store ++ [mkEntry d]).any
      (fun e => decide (e.content_hash = contentHash d2)) = true := by
    rw [List.any_append]
    simp [mkEntry, hsame]
  refine ⟨?_, ?_, ?_, ?_, ?_⟩
  · rw [hs1]
    simp only [ingestOne, hany1, if_true]
  · rw [hs1]
    simp only [ingestOne, hany1, if_true]
  · rw [hs1]
    simp only [ingestOne, hany1, if_true]
  · rw [hs1]
    simp only [ingestOne, hany2, if_true]
  · rw [hs1, List.countP_append, hfresh]
    simp [mkEntry]

/-- Witness for C5: one dataset ingested into the empty store, then its
re-export in another format. -/
theorem ingestion_idempotent_witness :
    (ingestOne (ingestOne [] csvSet).store csvSet).store = (ingestOne [] csvSet).store
  ∧ (ingestOne (ingestOne [] csvSet).store xlsxSet).store = (ingestOne [] csvSet).store :=
  ⟨(ingestion_idempotent [] csvSet xlsxSet (by decide) (by decide)).1,
   (ingestion_idempotent [] csvSet xlsxSet (by decide) (by decide)).2.2.2.1⟩

/-- C6: training is all-or-nothing — whenever a training run fails, the
previously persisted artifact is left unchanged and no artifact is put in
its place; in particular the empty corpus, the corpus with no mappable
labels and the single-class corpus all fail with `InsufficientDataError`. -/
theorem training_all_or_nothing (prev : Option ModelArtifact)
    (corpus : List DatasetRow) (e : TrainError)
    (h : runTrain corpus = .error e) :
    (trainAndPersist prev corpus).1 = prev
  ∧ (trainAndPersist prev corpus).2 = .error e
  ∧ runTrain [] = .error .insufficientData
  ∧ runTrain [{ text := "a", label := "not-a-label" }] = .error .insufficientData
  ∧ runTrain [{ text := "a", label := "spam" }, { text := "b", label := "phishing" }] =
      .error .insufficientData := by
  refine ⟨?_, ?_, ?_, ?_, ?_⟩
  · simp only [trainAndPersist, h]
  · simp only [trainAndPersist, h]
  · decide
  · decide
  · decide

/-- Witness for C6: a failing run over the empty corpus leaves a concrete
persisted artifact in place. -/
theorem training_all_or_nothing_witness :
    (trainAndPersist (some { threshold := 6/10, priorProb := 1/2, sampleCount := 4 }) []).1
      = some { threshold := 6/10, priorProb := 1/2, sampleCount := 4 } :=
  (training_all_or_nothing
    (some { threshold := 6/10, priorProb := 1/2, sampleCount := 4 }) []
    .insufficientData (by decide)).1

lemma analyzeBulk_successful_mem (f : Nat → Except ApiError String)
    (ids : List Nat) (id : Nat) (r : String) :
    (id, r) ∈ (analyzeBulkEmails f ids).successful ↔ id ∈ ids ∧ f id = .ok r := by
  induction ids with
  | nil => simp [analyzeBulkEmails]
  | cons i rest ih =>
    cases hfi : f i with
    | ok resp =>
      simp only [analyzeBulkEmails, hfi, List.mem_cons, Prod.mk.injEq]
      constructor
      · rintro (⟨rfl, rfl⟩ | h)
        · exact ⟨Or.inl rfl, hfi⟩
        · obtain ⟨hm, hf⟩ := ih.mp h
          exact ⟨Or.inr hm, hf⟩
      · rintro ⟨rfl | hm, hf⟩
        · rw [hfi] at hf
          injection hf with hf
          exact Or.inl ⟨rfl, hf.symm⟩
        · exact Or.inr (ih.mpr ⟨hm, hf⟩)
    | error err =>
      simp only [analyzeBulkEmails, hfi, List.mem_cons]
      constructor
      · intro h
        obtain ⟨hm, hf⟩ := ih.mp h
        exact ⟨Or.inr hm, hf⟩
      · rintro ⟨rfl | hm, hf⟩
        · rw [hfi] at hf
          exact absurd hf (by simp)
        · exact ih.mpr ⟨hm, hf⟩

lemma analyzeBulk_failed_mem (f : Nat → Except ApiError String)
    (ids : List Nat) (id : Nat) (m : String) :
    (id, m) ∈ (analyzeBulkEmails f ids).failed ↔
      id ∈ ids ∧ ∃ err, f id = .error err ∧ err.message = m := by
  induction ids with
  | nil => simp [analyzeBulkEmails]
  | cons i rest ih =>
    cases hfi : f i with
    | ok resp =>
      simp only [analyzeBulkEmails, hfi, List.mem_cons]
      constructor
      · intro h
        obtain ⟨hm, hf⟩ := ih.mp h
        exact ⟨Or.inr hm, hf⟩
      · rintro ⟨rfl | hm, err, hf, hmsg⟩
        · rw [hfi] at hf
          exact absurd hf (by simp)
        · exact ih.mpr ⟨hm, err, hf, hmsg⟩
    | error err =>
      simp only [analyzeBulkEmails, hfi, List.mem_cons, Prod.mk.injEq]
      constructor
      · rintro (⟨rfl, rfl⟩ | h)
        · exact ⟨Or.inl rfl, err, hfi, rfl⟩
        · obtain ⟨hm, hf⟩ := ih.mp h
          exact ⟨Or.inr hm, hf⟩
      · rintro ⟨rfl | hm, err2, hf, hmsg⟩
        · rw [hfi] at hf
          injection hf with hf
          exact Or.inl ⟨rfl, by rw [← hmsg, hf]⟩
        · exact Or.inr (ih.mpr ⟨hm, err2, hf, hmsg⟩)

/-- C8: batch analysis is independent per record — the entry an email id gets in
the bulk result (success with its response, or failure with its message) is
determined by the request outcome of that id alone, for any surrounding
batch; and the batch inference variant returns one report per input, the
report at a position depending only on the input at that position. -/
theorem batch_records_independent :
    (∀ (f : Nat → Except ApiError String) (ids : List Nat) (id : Nat) (r : String),
       (id, r) ∈ (analyzeBulkEmails f ids).successful ↔ id ∈ ids ∧ f id = .ok r)
  ∧ (∀ (f : Nat → Except ApiError String) (ids : List Nat) (id : Nat) (m : String),
       (id, m) ∈ (analyzeBulkEmails f ids).failed ↔
         id ∈ ids ∧ ∃ err, f id = .error err ∧ err.message = m)
  ∧ (∀ (artifact : Option ModelArtifact) (p : String → ℚ)
       (inputs : List (String × Option String)),
       (scoreBatch artifact p inputs).length = inputs.length)
  ∧ (∀ (artifact : Option ModelArtifact) (p : String → ℚ)
       (inputs1 inputs2 : List (String × Option String)) (i j : Nat),
       inputs1[i]? = inputs2[j]? →
       (scoreBatch artifact p inputs1)[i]? = (scoreBatch artifact p inputs2)[j]?) := by
  refine ⟨analyzeBulk_successful_mem, analyzeBulk_failed_mem, ?_, ?_⟩
  · intro artifact p inputs
    simp [scoreBatch]
  · intro artifact p inputs1 inputs2 i j h
    simp only [scoreBatch, List.getElem?_map, h]

/-- Witness for C8: a concrete two-element batch where the first id
succeeds. -/
theorem batch_records_independent_witness :
    (1, "ok1") ∈ (analyzeBulkEmails
      (fun id => if id = 1 then .ok "ok1"
        else .error { message := "boom", type := "API_ERROR",
                      statusCode := some 500, isAuthError := false })
      [1, 2]).successful :=
  (batch_records_independent.1
    (fun id => if id = 1 then .ok "ok1"
      else .error { message := "boom", type := "API_ERROR",
                    statusCode := some 500, isAuthError := false })
    [1, 2] 1 "ok1").mpr ⟨by decide, by decide⟩

/-- C10: the successful and failed arrays partition the input id list — the
successes are exactly the ids whose outcome is a success, in input order,
the failures are exactly the rest, in input order, and the two lengths sum
to the input length (so the failure of one id never aborts the rest). -/
theorem bulk_results_partition (f : Nat → Except ApiError String) (ids : List Nat) :
    (analyzeBulkEmails f ids).successful.map Prod.fst =
      ids.filter (fun id => exceptOk (f id))
  ∧ (analyzeBulkEmails f ids).failed.map Prod.fst =
      ids.filter (fun id => !exceptOk (f id))
  ∧ (analyzeBulkEmails f ids).successful.length
      + (analyzeBulkEmails f ids).failed.length = ids.length := by
  induction ids with
  | nil => simp [analyzeBulkEmails]
  | cons i rest ih =>
    obtain ⟨ih1, ih2, ih3⟩ := ih
    cases hfi : f i with
    | ok resp =>
      refine ⟨?_, ?_, ?_⟩ <;>
        simp [analyzeBulkEmails, hfi, exceptOk, ih1, ih2, ← ih3]
      omega
    | error err =>
      refine ⟨?_, ?_, ?_⟩ <;>
        simp [analyzeBulkEmails, hfi, exceptOk, ih1, ih2, ← ih3]
      omega

/-- C9 counterexample: a 401 response whose body fails to parse as JSON is
rejected with an `API_ERROR` (carrying the status, auth flag false), not
with an `AUTH_ERROR`, because `ApiClient.request` parses the body before
checking the 401/403 status. -/
theorem request_401_parse_failure_not_auth :
    request (.resp 401 none) =
      .error { message := "Server error", type := "API_ERROR",
               statusCode := some 401, isAuthError := false }
  ∧ "API_ERROR" ≠ "AUTH_ERROR" :=
  ⟨rfl, by decide⟩

/-- C9 (amended): every rejection of `ApiClient.request` is an `ApiError`
and a success only ever carries the parsed body of an ok response; a 401 or
403 response whose body parses as JSON yields an AUTH_ERROR with the auth
flag set; any other non-ok status with a JSON body yields an API_ERROR
carrying the status; a JSON parse failure — for any status, 401/403
included — yields an API_ERROR carrying the status; a fetch TypeError is
wrapped as NETWORK_ERROR and any other thrown error as UNKNOWN_ERROR. -/
theorem request_error_taxonomy (f : FetchOutcome) :
    (∀ d, request f = .ok d → ∃ s, f = .resp s (some d) ∧ statusOk s = true)
  ∧ (∀ s d, f = .resp s (some d) → s = 401 ∨ s = 403 →
       request f = .error { message := d, type := "AUTH_ERROR",
                            statusCode := some s, isAuthError := true })
  ∧ (∀ s d, f = .resp s (some d) → ¬(s = 401 ∨ s = 403) → statusOk s = false →
       request f = .error { message := d, type := "API_ERROR",
                            statusCode := some s, isAuthError := false })
  ∧ (∀ s, f = .resp s none →
       request f = .error { message := "Server error", type := "API_ERROR",
                            statusCode := some s, isAuthError := false })
  ∧ (∀ m, f = .fetchTypeError m →
       request f = .error { message := NETWORK_ERROR_MSG, type := "NETWORK_ERROR",
                            statusCode := none, isAuthError := false })
  ∧ (∀ m, f = .otherThrow m →
       request f = .error { message := m, type := "UNKNOWN_ERROR",
                            statusCode := none, isAuthError := false }) := by
  refine ⟨?_, ?_, ?_, ?_, ?_, ?_⟩
  · intro d h
    match f with
    | .fetchTypeError m => exact absurd h (by simp [request])
    | .otherThrow m => exact absurd h (by simp [request])
    | .resp s none => exact absurd h (by simp [request])
    | .resp s (some data) =>
      simp only [request] at h
      by_cases h1 : (s = 401 || s = 403) = true
      · rw [if_pos h1] at h
        exact absurd h (by simp)
      · rw [if_neg h1] at h
        by_cases h2 : (!statusOk s) = true
        · rw [if_pos h2] at h
          exact absurd h (by simp)
        · rw [if_neg h2] at h
          injection h with h
          exact ⟨s, by rw [h], by simpa using h2⟩
  · rintro s d rfl hs
    have h1 : (s = 401 || s = 403) = true := by
      rcases hs with rfl | rfl <;> decide
    simp only [request, h1, if_true]
  · rintro s d rfl hs hok
    have hA : s ≠ 401 := fun hc => hs (Or.inl hc)
    have hB : s ≠ 403 := fun hc => hs (Or.inr hc)
    have h1 : (s = 401 || s = 403) = false := by simp [hA, hB]
    simp only [request, h1, Bool.false_eq_true, if_false, hok, Bool.not_false, if_true]
  · rintro s rfl
    simp only [request]
  · rintro m rfl
    simp only [request]
  · rintro m rfl
    simp only [request]

/-- Witness for C9 (amended): a 403 with a JSON body is an AUTH_ERROR. -/
theorem request_error_taxonomy_witness :
    request (.resp 403 (some "denied")) =
      .error { message := "denied", type := "AUTH_ERROR",
               statusCode := some 403, isAuthError := true } :=
  (request_error_taxonomy (.resp 403 (some "denied"))).2.1 403 "denied" rfl (Or.inr rfl)

example : isBlank "   " = true := by decide
example : isBlank " a " = false := by decide
example : linksCount "see http://a.com and https://b.xyz/x" = 2 := by decide
example : domainsOf "see http://a.com and https://b.xyz/x" = ["a.com", "b.xyz"] := by decide
example : urgentFlag "URGENT: verify now" = true := by decide
example : urgentFlag "team meeting at 10" = false := by decide
example : score none (1/2) "hello" none =
    .ok { model_probability := 1/2, ensemble_score := 33/100, tier := .SAFE,
          urgent := false, links_count := 0, sender_domain := "unknown" } := by
  have hb : isBlank "hello" = false := by decide
  have hu : urgentFlag "hello" = false := by decide
  have hl : linksCount "hello" = 0 := by decide
  have hd : domainsOf "hello" = [] := by decide
  have h1 : SUSPICIOUS_PATTERNS.any (fun p => p.toList.isPrefixOf "unknown".toList) = false := by
    decide
  have h2 : SUSPICIOUS_TLDS.any (fun t => t.toList.isSuffixOf "unknown".toList) = false := by
    decide
  have h3 : TRUSTED_DOMAINS.contains "unknown" = false := by decide
  simp only [score, hb, Bool.false_eq_true, if_false, senderDomainOf, hu, hl, hd,
    ensembleScore, boolToRat, linkRisk, domainRisk, h1, h2, h3, discountFactor,
    List.all_nil, tierOf, thresholdOf, DEFAULT_THRESHOLD, if_true]
  norm_num

end Phish
